import Mathlib

/-!
Shallow embedding of `src/main.rs` of the brightshift utility: a CLI tool
that sets, adjusts or reports monitor brightness (VCP feature 0x10) over
DDC/CI.  The external library (`ddc_hi`) is modelled by an environment: a
list of displays, each carrying the outcome its handle would give for a
`get_vcp_feature(0x10)` read and for a `set_vcp_feature(0x10, _)` write.
The embedding computes the process exit code, the printed lines (tagged
stdout/stderr) and the ordered list of display I/O calls.
-/

namespace Brightshift

/-- Decimal-digit accumulator underlying Rust's integer `from_str`:
returns `none` as soon as a non-digit character appears. -/
def digitsToNatAux : List Char → Nat → Option Nat
  | [], acc => some acc
  | c :: cs, acc =>
    if c.isDigit then digitsToNatAux cs (acc * 10 + (c.toNat - 48)) else none

/-- Parse a non-empty, all-digit character list to its decimal value. -/
def parseNatDigits : List Char → Option Nat
  | [] => none
  | c :: cs => digitsToNatAux (c :: cs) 0

/-- Rust's `str::parse::<i16>()`: optional sign, then one or more decimal
digits; the value must lie in `[-32768, 32767]`. -/
def parseI16 (s : String) : Option Int :=
  match s.toList with
  | '+' :: rest =>
    (parseNatDigits rest).bind (fun n => if n ≤ 32767 then some (n : Int) else none)
  | '-' :: rest =>
    (parseNatDigits rest).bind (fun n => if n ≤ 32768 then some (-(n : Int)) else none)
  | cs =>
    (parseNatDigits cs).bind (fun n => if n ≤ 32767 then some (n : Int) else none)

/-- Rust's `str::parse::<u16>()`: optional `+`, then one or more decimal
digits; the value must lie in `[0, 65535]`.  A leading `-` is a parse
error for an unsigned target. -/
def parseU16 (s : String) : Option Nat :=
  match s.toList with
  | '+' :: rest =>
    (parseNatDigits rest).bind (fun n => if n ≤ 65535 then some n else none)
  | cs =>
    (parseNatDigits cs).bind (fun n => if n ≤ 65535 then some n else none)

/-- Rust's `str::starts_with(c: char)`: the first character is `c`. -/
def startsWithChar (c : Char) (s : String) : Bool :=
  match s.toList with
  | [] => false
  | a :: _ => a = c

/-- The mutable locals of `main` populated by the argument loop
(`main.rs` lines 47-51). -/
structure Flags where
  brightness_value : Option String
  print_help : Bool
  print_status : Bool
  get_brightness : Bool
  adjust_brightness : Option Int
deriving DecidableEq, Repr

def initFlags : Flags := ⟨none, false, false, false, none⟩

/-- The two fatal errors the argument loop can raise. -/
inductive ParseErr where
  | invalidAdjustment (s : String)
  | unexpectedArg (s : String)
deriving DecidableEq, Repr

/-- One iteration of the `for arg in &args[1..]` match (`main.rs`
lines 54-80); arms are tried in source order. -/
def parseStep (fl : Flags) (arg : String) : Except ParseErr Flags :=
  if arg = "--help" then
    .ok ⟨fl.brightness_value, true, fl.print_status, fl.get_brightness, fl.adjust_brightness⟩
  else if arg = "-h" then
    .ok ⟨fl.brightness_value, true, fl.print_status, fl.get_brightness, fl.adjust_brightness⟩
  else if arg = "--status" then
    .ok ⟨fl.brightness_value, fl.print_help, true, fl.get_brightness, fl.adjust_brightness⟩
  else if arg = "-s" then
    .ok ⟨fl.brightness_value, fl.print_help, true, fl.get_brightness, fl.adjust_brightness⟩
  else if arg = "--get" then
    .ok ⟨fl.brightness_value, fl.print_help, fl.print_status, true, fl.adjust_brightness⟩
  else if arg = "-g" then
    .ok ⟨fl.brightness_value, fl.print_help, fl.print_status, true, fl.adjust_brightness⟩
  else if startsWithChar '+' arg || startsWithChar '-' arg then
    match parseI16 arg with
    | some delta =>
      .ok ⟨fl.brightness_value, fl.print_help, fl.print_status, fl.get_brightness, some delta⟩
    | none => .error (.invalidAdjustment arg)
  else if fl.brightness_value.isSome then .error (.unexpectedArg arg)
  else
    .ok ⟨some arg, fl.print_help, fl.print_status, fl.get_brightness, fl.adjust_brightness⟩

/-- The whole argument loop; a fatal arm aborts the loop (the Rust code
calls `exit(1)` inside the loop body). -/
def parseLoop : List String → Flags → Except ParseErr Flags
  | [], fl => .ok fl
  | arg :: rest, fl =>
    match parseStep fl arg with
    | .ok fl2 => parseLoop rest fl2
    | .error e => .error e

/-- Environment model of one enumerated display: the `ddc_hi` model name
(`display.info.model_name : Option<String>`), the result its handle gives
to `get_vcp_feature(0x10)` (`some v` for `Ok` with `value() = v`, `none`
for `Err`), and whether `set_vcp_feature(0x10, _)` succeeds. -/
structure DisplayDev where
  model_name : Option String
  readResult : Option Nat
  setOk : Bool
deriving DecidableEq, Repr

/-- A display I/O call issued through a display handle. -/
inductive Ev where
  | getFeature (code : Nat)
  | setFeature (code : Nat) (value : Nat)
deriving DecidableEq, Repr

inductive OutStream where
  | stdout
  | stderr
deriving DecidableEq, Repr

/-- One printed line, abstracted to the `println!`/`eprintln!` call site
that produces it (the usage block counts as one message). -/
inductive Msg where
  | usage
  | noCommand
  | invalidAdjustment (s : String)
  | unexpectedArg (s : String)
  | statusSupported (name : Option String)
  | statusUnsupported (name : Option String)
  | gotValue (v : Nat)
  | getFailed (name : Option String)
  | adjusted (v : Nat) (name : Option String)
  | readFailed (name : Option String)
  | setFailed (name : Option String)
  | invalidBrightness (s : String)
  | rangeError
  | noDisplays
  | setTo (v : Nat) (name : Option String)
deriving DecidableEq, Repr

/-- Observable outcome of one run: exit code, printed lines in order,
display I/O calls in order, and whether the run panicked (the
`brightness_value.unwrap()` on `None`, unreachable for non-empty
argument lists). -/
structure RunResult where
  exitCode : Nat
  output : List (OutStream × Msg)
  io : List Ev
deriving DecidableEq, Repr

/-- Rust's `u16 as i16` cast: two's-complement reinterpretation. -/
def u16ToI16 (v : Nat) : Int :=
  if v % 65536 < 32768 then ((v % 65536 : Nat) : Int)
  else ((v % 65536 : Nat) : Int) - 65536

/-- Release-mode `i16` addition result: wrap into `[-32768, 32767]`. -/
def wrapI16 (x : Int) : Int := (x + 32768) % 65536 - 32768

/-- `--status` body per display (`main.rs` lines 90-101). -/
def statusLine (d : DisplayDev) : OutStream × Msg :=
  match d.readResult with
  | some _ => (.stdout, .statusSupported d.model_name)
  | none => (.stdout, .statusUnsupported d.model_name)

def statusRun (displays : List DisplayDev) : RunResult :=
  ⟨0, displays.map statusLine, displays.map (fun _ => Ev.getFeature 0x10)⟩

/-- `--get` body per display (`main.rs` lines 108-116); note both arms
use `println!`, so the failure line also goes to stdout. -/
def getLine (d : DisplayDev) : OutStream × Msg :=
  match d.readResult with
  | some v => (.stdout, .gotValue v)
  | none => (.stdout, .getFailed d.model_name)

def getRun (displays : List DisplayDev) : RunResult :=
  ⟨0, displays.map getLine, displays.map (fun _ => Ev.getFeature 0x10)⟩

/-- Adjust-path body per display (`main.rs` lines 124-143): read, then
`(current as i16 + delta).clamp(0, 100) as u16`, then write.  Returns the
I/O calls and the printed lines of that iteration. -/
def adjustDisplay (delta : Int) (d : DisplayDev) : List Ev × List (OutStream × Msg) :=
  match d.readResult with
  | some v =>
    let new_brightness : Nat := (max 0 (min 100 (wrapI16 (u16ToI16 v + delta)))).toNat
    if d.setOk then
      ([Ev.getFeature 0x10, Ev.setFeature 0x10 new_brightness],
       [(.stdout, .adjusted new_brightness d.model_name)])
    else
      ([Ev.getFeature 0x10, Ev.setFeature 0x10 new_brightness],
       [(.stderr, .setFailed d.model_name)])
  | none => ([Ev.getFeature 0x10], [(.stderr, .readFailed d.model_name)])

def adjustRun (delta : Int) (displays : List DisplayDev) : RunResult :=
  ⟨0, (displays.map (fun d => (adjustDisplay delta d).2)).flatten,
      (displays.map (fun d => (adjustDisplay delta d).1)).flatten⟩

/-- Absolute-set loop body per display (`main.rs` lines 175-186). -/
def setLine (n : Nat) (d : DisplayDev) : OutStream × Msg :=
  if d.setOk then (.stdout, .setTo n d.model_name) else (.stderr, .setFailed d.model_name)

def setRun (n : Nat) (displays : List DisplayDev) : RunResult :=
  ⟨0, displays.map (setLine n), displays.map (fun _ => Ev.setFeature 0x10 n)⟩

/-- Panic exit code used by the Rust runtime; only reachable through the
`unwrap()` on a `None` brightness value. -/
def panicResult : RunResult := ⟨101, [], []⟩

/-- Fall-through absolute-set path (`main.rs` lines 148-186): parse the
positional value as `u16`, range-check it, require a non-empty display
list, then write it everywhere. -/
def setPath : Option String → List DisplayDev → RunResult
  | none, _ => panicResult
  | some s, displays =>
    match parseU16 s with
    | none => ⟨1, [(.stderr, .invalidBrightness s)], []⟩
    | some n =>
      if n > 100 then ⟨1, [(.stderr, .rangeError)], []⟩
      else if displays.isEmpty then ⟨1, [(.stderr, .noDisplays)], []⟩
      else setRun n displays

/-- Dispatch on the populated flags (`main.rs` lines 82-186), in source
order: help, status, get, adjust, absolute set. -/
def dispatch (fl : Flags) (displays : List DisplayDev) : RunResult :=
  if fl.print_help then ⟨0, [(.stdout, .usage)], []⟩
  else if fl.print_status then statusRun displays
  else if fl.get_brightness then getRun displays
  else
    match fl.adjust_brightness with
    | some delta => adjustRun delta displays
    | none => setPath fl.brightness_value displays

/-- The whole program.  `args` is the user argument list (Rust's
`args[1..]`, the program name excluded); `displays` is what
`Display::enumerate()` would return. -/
def runMain (args : List String) (displays : List DisplayDev) : RunResult :=
  if args.isEmpty then ⟨1, [(.stderr, .noCommand)], []⟩
  else
    match parseLoop args initFlags with
    | .error (.invalidAdjustment s) =>
      ⟨1, [(.stderr, .invalidAdjustment s), (.stdout, .usage)], []⟩
    | .error (.unexpectedArg s) =>
      ⟨1, [(.stderr, .unexpectedArg s), (.stdout, .usage)], []⟩
    | .ok fl => dispatch fl displays

/-! ### Basic lemmas about the embedding -/

theorem isEmpty_false {α : Type} {l : List α} (h : l ≠ []) : l.isEmpty = false := by
  cases l with
  | nil => exact absurd rfl h
  | cons a t => rfl

theorem runMain_ok (args : List String) (displays : List DisplayDev) (fl : Flags)
    (ha : args ≠ []) (hp : parseLoop args initFlags = Except.ok fl) :
    runMain args displays = dispatch fl displays := by
  cases args with
  | nil => exact absurd rfl ha
  | cons a l => simp [runMain, hp]

theorem runMain_error_invalid (args : List String) (displays : List DisplayDev) (s : String)
    (ha : args ≠ []) (hp : parseLoop args initFlags = Except.error (.invalidAdjustment s)) :
    runMain args displays
      = ⟨1, [(.stderr, .invalidAdjustment s), (.stdout, .usage)], []⟩ := by
  cases args with
  | nil => exact absurd rfl ha
  | cons a l => simp [runMain, hp]

theorem runMain_error_unexpected (args : List String) (displays : List DisplayDev) (s : String)
    (ha : args ≠ []) (hp : parseLoop args initFlags = Except.error (.unexpectedArg s)) :
    runMain args displays
      = ⟨1, [(.stderr, .unexpectedArg s), (.stdout, .usage)], []⟩ := by
  cases args with
  | nil => exact absurd rfl ha
  | cons a l => simp [runMain, hp]

theorem dispatch_help (fl : Flags) (displays : List DisplayDev)
    (hh : fl.print_help = true) :
    dispatch fl displays = ⟨0, [(.stdout, .usage)], []⟩ := by
  simp [dispatch, hh]

theorem dispatch_status (fl : Flags) (displays : List DisplayDev)
    (hh : fl.print_help = false) (hs : fl.print_status = true) :
    dispatch fl displays = statusRun displays := by
  simp [dispatch, hh, hs]

theorem dispatch_adjust (fl : Flags) (displays : List DisplayDev) (delta : Int)
    (hh : fl.print_help = false) (hs : fl.print_status = false)
    (hg : fl.get_brightness = false) (ha : fl.adjust_brightness = some delta) :
    dispatch fl displays = adjustRun delta displays := by
  simp [dispatch, hh, hs, hg, ha]

theorem dispatch_set (fl : Flags) (displays : List DisplayDev)
    (hh : fl.print_help = false) (hs : fl.print_status = false)
    (hg : fl.get_brightness = false) (ha : fl.adjust_brightness = none) :
    dispatch fl displays = setPath fl.brightness_value displays := by
  simp [dispatch, hh, hs, hg, ha]

theorem ne_flag_of_parseI16 (s : String) (delta : Int) (hparse : parseI16 s = some delta) :
    s ≠ "--help" ∧ s ≠ "-h" ∧ s ≠ "--status" ∧ s ≠ "-s" ∧ s ≠ "--get" ∧ s ≠ "-g" := by
  refine ⟨?_, ?_, ?_, ?_, ?_, ?_⟩ <;>
    (intro h; subst h;
     rw [show parseI16 _ = none from by decide] at hparse; simp at hparse)

theorem ne_flag_of_not_dash (s : String) (hminus : startsWithChar '-' s = false) :
    s ≠ "--help" ∧ s ≠ "-h" ∧ s ≠ "--status" ∧ s ≠ "-s" ∧ s ≠ "--get" ∧ s ≠ "-g" := by
  refine ⟨?_, ?_, ?_, ?_, ?_, ?_⟩ <;>
    (intro h; subst h; exact absurd hminus (by decide))

theorem parseStep_signed (fl : Flags) (s : String) (delta : Int)
    (hpm : (startsWithChar '+' s || startsWithChar '-' s) = true)
    (hparse : parseI16 s = some delta) :
    parseStep fl s = Except.ok
      ⟨fl.brightness_value, fl.print_help, fl.print_status, fl.get_brightness, some delta⟩ := by
  obtain ⟨h1, h2, h3, h4, h5, h6⟩ := ne_flag_of_parseI16 s delta hparse
  unfold parseStep
  rw [if_neg h1, if_neg h2, if_neg h3, if_neg h4, if_neg h5, if_neg h6, if_pos hpm, hparse]

theorem parseStep_bare (fl : Flags) (s : String)
    (hplus : startsWithChar '+' s = false) (hminus : startsWithChar '-' s = false)
    (hbv : fl.brightness_value = none) :
    parseStep fl s = Except.ok
      ⟨some s, fl.print_help, fl.print_status, fl.get_brightness, fl.adjust_brightness⟩ := by
  obtain ⟨h1, h2, h3, h4, h5, h6⟩ := ne_flag_of_not_dash s hminus
  unfold parseStep
  rw [if_neg h1, if_neg h2, if_neg h3, if_neg h4, if_neg h5, if_neg h6]
  rw [hplus, hminus]
  simp [hbv]

theorem parseLoop_single_adjust (s : String) (delta : Int)
    (hpm : (startsWithChar '+' s || startsWithChar '-' s) = true)
    (hparse : parseI16 s = some delta) :
    parseLoop [s] initFlags = Except.ok ⟨none, false, false, false, some delta⟩ := by
  unfold parseLoop
  rw [parseStep_signed initFlags s delta hpm hparse]
  rfl

theorem parseLoop_single_bare (s : String)
    (hplus : startsWithChar '+' s = false) (hminus : startsWithChar '-' s = false) :
    parseLoop [s] initFlags = Except.ok ⟨some s, false, false, false, none⟩ := by
  unfold parseLoop
  rw [parseStep_bare initFlags s hplus hminus rfl]
  rfl

theorem parseLoop_adjust_then_bare (s t : String) (delta : Int)
    (hpm : (startsWithChar '+' s || startsWithChar '-' s) = true)
    (hparse : parseI16 s = some delta)
    (htp : startsWithChar '+' t = false) (htm : startsWithChar '-' t = false) :
    parseLoop [s, t] initFlags = Except.ok ⟨some t, false, false, false, some delta⟩ := by
  unfold parseLoop
  rw [parseStep_signed initFlags s delta hpm hparse]
  show parseLoop [t] ⟨none, false, false, false, some delta⟩ = _
  unfold parseLoop
  rw [parseStep_bare ⟨none, false, false, false, some delta⟩ t htp htm rfl]
  rfl

theorem u16ToI16_small (C : Nat) (hC : C ≤ 32767) : u16ToI16 C = (C : Int) := by
  unfold u16ToI16
  rw [Nat.mod_eq_of_lt (by omega)]
  rw [if_pos (by omega)]

theorem wrapI16_eq (x : Int) (h1 : -32768 ≤ x) (h2 : x ≤ 32767) : wrapI16 x = x := by
  unfold wrapI16
  omega

theorem clamp_toNat_le (x : Int) : (max 0 (min 100 x)).toNat ≤ 100 := by
  have h1 : max 0 (min 100 x) ≤ (100 : Int) := max_le (by norm_num) (min_le_left _ _)
  omega

theorem adjustDisplay_io_none (delta : Int) (d : DisplayDev) (hr : d.readResult = none) :
    (adjustDisplay delta d).1 = [Ev.getFeature 0x10] := by
  unfold adjustDisplay
  rw [hr]

theorem adjustDisplay_out_none (delta : Int) (d : DisplayDev) (hr : d.readResult = none) :
    (adjustDisplay delta d).2 = [(.stderr, .readFailed d.model_name)] := by
  unfold adjustDisplay
  rw [hr]

theorem adjustDisplay_io_some (delta : Int) (d : DisplayDev) (C : Nat)
    (hr : d.readResult = some C) :
    (adjustDisplay delta d).1
      = [Ev.getFeature 0x10,
         Ev.setFeature 0x10 (max 0 (min 100 (wrapI16 (u16ToI16 C + delta)))).toNat] := by
  unfold adjustDisplay
  rw [hr]
  by_cases hs : d.setOk = true <;> simp [hs]

theorem setRun_io_mem (n : Nat) (displays : List DisplayDev) (code v : Nat)
    (h : Ev.setFeature code v ∈ (setRun n displays).io) : code = 0x10 ∧ v = n := by
  simp only [setRun, List.mem_map] at h
  obtain ⟨d, _, he⟩ := h
  injection he with h1 h2
  exact ⟨h1.symm, h2.symm⟩

theorem adjustRun_io_mem (delta : Int) (displays : List DisplayDev) (code v : Nat)
    (h : Ev.setFeature code v ∈ (adjustRun delta displays).io) : code = 0x10 ∧ v ≤ 100 := by
  simp only [adjustRun, List.mem_flatten, List.mem_map] at h
  obtain ⟨l, ⟨d, _, hl⟩, hmem⟩ := h
  subst hl
  cases hr : d.readResult with
  | none =>
    rw [adjustDisplay_io_none delta d hr] at hmem
    simp at hmem
  | some C =>
    rw [adjustDisplay_io_some delta d C hr] at hmem
    simp only [List.mem_cons, List.mem_singleton, List.not_mem_nil] at hmem
    rcases hmem with h1 | h2 | h3
    · exact absurd h1 (by simp)
    · injection h2 with e1 e2
      exact ⟨e1, e2 ▸ clamp_toNat_le _⟩
    · exact absurd h3 (by simp)

theorem setPath_io_mem (bv : Option String) (displays : List DisplayDev) (code v : Nat)
    (h : Ev.setFeature code v ∈ (setPath bv displays).io) : code = 0x10 ∧ v ≤ 100 := by
  cases bv with
  | none => simp [setPath, panicResult] at h
  | some s =>
    cases hps : parseU16 s with
    | none => simp [setPath, hps] at h
    | some n =>
      simp only [setPath] at h
      rw [hps] at h
      simp only at h
      by_cases hgt : n > 100
      · rw [if_pos hgt] at h; simp at h
      · rw [if_neg hgt] at h
        by_cases he : displays.isEmpty = true
        · rw [if_pos he] at h; simp at h
        · rw [if_neg he] at h
          obtain ⟨h1, h2⟩ := setRun_io_mem n displays code v h
          exact ⟨h1, by omega⟩

theorem dispatch_io_mem (fl : Flags) (displays : List DisplayDev) (code v : Nat)
    (h : Ev.setFeature code v ∈ (dispatch fl displays).io) : code = 0x10 ∧ v ≤ 100 := by
  unfold dispatch at h
  by_cases hh : fl.print_help = true
  · rw [if_pos hh] at h; simp at h
  · rw [if_neg hh] at h
    by_cases hs : fl.print_status = true
    · rw [if_pos hs] at h
      simp only [statusRun, List.mem_map] at h
      obtain ⟨d, _, he⟩ := h
      exact absurd he (by simp)
    · rw [if_neg hs] at h
      by_cases hg : fl.get_brightness = true
      · rw [if_pos hg] at h
        simp only [getRun, List.mem_map] at h
        obtain ⟨d, _, he⟩ := h
        exact absurd he (by simp)
      · rw [if_neg hg] at h
        cases ha : fl.adjust_brightness with
        | some delta =>
          rw [ha] at h
          exact adjustRun_io_mem delta displays code v h
        | none =>
          rw [ha] at h
          exact setPath_io_mem fl.brightness_value displays code v h

theorem parseStep_help_mono (fl : Flags) (arg : String) (fl2 : Flags)
    (h : parseStep fl arg = Except.ok fl2) (hm : fl.print_help = true) :
    fl2.print_help = true := by
  unfold parseStep at h
  repeat' split at h
  all_goals first
    | (injection h with h2; subst h2; simp [hm])
    | simp at h

theorem parseLoop_help_mono (args : List String) (fl fl2 : Flags)
    (h : parseLoop args fl = Except.ok fl2) (hm : fl.print_help = true) :
    fl2.print_help = true := by
  induction args generalizing fl with
  | nil =>
    unfold parseLoop at h
    injection h with h1
    exact h1 ▸ hm
  | cons a rest ih =>
    unfold parseLoop at h
    cases hps : parseStep fl a with
    | ok flm =>
      rw [hps] at h
      exact ih flm h (parseStep_help_mono fl a flm hps hm)
    | error e => rw [hps] at h; cases h

theorem parseStep_help_token (fl : Flags) (arg : String)
    (ha : arg = "--help" ∨ arg = "-h") :
    parseStep fl arg = Except.ok
      ⟨fl.brightness_value, true, fl.print_status, fl.get_brightness, fl.adjust_brightness⟩ := by
  rcases ha with h | h
  · subst h; rfl
  · subst h; rfl

theorem parseLoop_mem_help (args : List String) (fl fl2 : Flags)
    (hmem : "--help" ∈ args ∨ "-h" ∈ args)
    (h : parseLoop args fl = Except.ok fl2) :
    fl2.print_help = true := by
  induction args generalizing fl with
  | nil => simp at hmem
  | cons a rest ih =>
    unfold parseLoop at h
    cases hps : parseStep fl a with
    | error e => rw [hps] at h; cases h
    | ok flm =>
      rw [hps] at h
      by_cases hhead : a = "--help" ∨ a = "-h"
      · rw [parseStep_help_token fl a hhead] at hps
        injection hps with hps
        have hm : flm.print_help = true := by rw [← hps]
        exact parseLoop_help_mono rest flm fl2 h hm
      · have hrest : "--help" ∈ rest ∨ "-h" ∈ rest := by
          rcases hmem with hm1 | hm1
          · rcases List.mem_cons.mp hm1 with he | ht
            · exact absurd (Or.inl he.symm) hhead
            · exact Or.inl ht
          · rcases List.mem_cons.mp hm1 with he | ht
            · exact absurd (Or.inr he.symm) hhead
            · exact Or.inr ht
        exact ih flm hrest h

theorem runMain_bare (s : String) (displays : List DisplayDev)
    (hplus : startsWithChar '+' s = false) (hminus : startsWithChar '-' s = false) :
    runMain [s] displays = setPath (some s) displays := by
  rw [runMain_ok [s] displays ⟨some s, false, false, false, none⟩ (by simp)
      (parseLoop_single_bare s hplus hminus)]
  rw [dispatch_set _ displays rfl rfl rfl rfl]

theorem setPath_range (s : String) (N : Nat) (displays : List DisplayDev)
    (hparse : parseU16 s = some N) (hgt : 100 < N) :
    setPath (some s) displays = ⟨1, [(.stderr, .rangeError)], []⟩ := by
  simp only [setPath, hparse]
  rw [if_pos hgt]

/-! ### Claim theorems -/

/-- C1 (amended): on the adjust path, for every display whose brightness
read succeeds with value `C`, invoking the program with a signed delta
token parsing to `D` writes `max 0 (min 100 (C + D))` via
set-feature 0x10 — provided the `u16 as i16` cast and the `i16` addition
do not overflow (`C ≤ 32767` and `-32768 ≤ C + D ≤ 32767`); outside that
range the `i16` sum wraps before clamping. -/
theorem adjust_writes_clamped_sum (s : String) (delta : Int)
    (displays : List DisplayDev) (d : DisplayDev) (C : Nat)
    (hpm : (startsWithChar '+' s || startsWithChar '-' s) = true)
    (hparse : parseI16 s = some delta)
    (hd : d ∈ displays) (hr : d.readResult = some C)
    (hC : C ≤ 32767)
    (hlo : -32768 ≤ (C : Int) + delta) (hhi : (C : Int) + delta ≤ 32767) :
    (runMain [s] displays).io
      = (displays.map (fun x => (adjustDisplay delta x).1)).flatten
    ∧ (adjustDisplay delta d).1
      = [Ev.getFeature 0x10,
         Ev.setFeature 0x10 (max 0 (min 100 ((C : Int) + delta))).toNat] := by
  constructor
  · rw [runMain_ok [s] displays ⟨none, false, false, false, some delta⟩ (by simp)
        (parseLoop_single_adjust s delta hpm hparse)]
    rw [dispatch_adjust _ displays delta rfl rfl rfl rfl]
    rfl
  · rw [adjustDisplay_io_some delta d C hr, u16ToI16_small C hC, wrapI16_eq _ hlo hhi]

/-- Witness for C1: `+30` on a display currently at 50 writes 80. -/
theorem adjust_writes_clamped_sum_witness :
    parseI16 "+30" = some 30
    ∧ ((runMain ["+30"] [⟨some "M", some 50, true⟩]).io
        = ([⟨some "M", some 50, true⟩].map
            (fun x => (adjustDisplay 30 x).1)).flatten
      ∧ (adjustDisplay 30 ⟨some "M", some 50, true⟩).1
        = [Ev.getFeature 0x10,
           Ev.setFeature 0x10 (max 0 (min 100 ((50 : Int) + 30))).toNat]) :=
  ⟨by decide,
   adjust_writes_clamped_sum "+30" 30 [⟨some "M", some 50, true⟩]
     ⟨some "M", some 50, true⟩ 50 (by decide) (by decide) (by decide) (by decide)
     (by decide) (by decide) (by decide)⟩

/-- Counterexample for C1 as stated: with current value 100 and delta
token `+32767`, the claim demands `max 0 (min 100 (100 + 32767)) = 100`,
but the `i16` sum wraps and the program writes 0. -/
theorem adjust_overflow_counterexample :
    (runMain ["+32767"] [⟨some "M", some 100, true⟩]).io
      = [Ev.getFeature 0x10, Ev.setFeature 0x10 0]
    ∧ (max 0 (min 100 ((100 : Int) + 32767))).toNat = 100
    ∧ (0 : Nat) ≠ 100 := by decide

/-- C2 (confirmed): for every positional token parsing to `N ≤ 100`, the
run issues exactly one `set_vcp_feature(0x10, N)` call per enumerated
display and nothing else. -/
theorem absolute_set_one_write_per_display (s : String) (N : Nat)
    (displays : List DisplayDev)
    (hplus : startsWithChar '+' s = false) (hminus : startsWithChar '-' s = false)
    (hparse : parseU16 s = some N) (hle : N ≤ 100) :
    (runMain [s] displays).io = displays.map (fun _ => Ev.setFeature 0x10 N) := by
  rw [runMain_ok [s] displays ⟨some s, false, false, false, none⟩ (by simp)
      (parseLoop_single_bare s hplus hminus)]
  rw [dispatch_set _ displays rfl rfl rfl rfl]
  show (setPath (some s) displays).io = _
  simp only [setPath, hparse]
  rw [if_neg (by omega : ¬ N > 100)]
  by_cases he : displays.isEmpty = true
  · rw [if_pos he]
    have hemp : displays = [] := by
      cases displays with
      | nil => rfl
      | cons a t => simp at he
    subst hemp
    rfl
  · rw [if_neg he]
    rfl

/-- Witness for C2: `50` on two displays writes 50 to both. -/
theorem absolute_set_one_write_per_display_witness :
    parseU16 "50" = some 50
    ∧ (runMain ["50"] [⟨some "A", some 20, true⟩, ⟨none, none, false⟩]).io
      = [⟨some "A", some 20, true⟩, (⟨none, none, false⟩ : DisplayDev)].map
          (fun _ => Ev.setFeature 0x10 50) :=
  ⟨by decide,
   absolute_set_one_write_per_display "50" 50 _ (by decide) (by decide)
     (by decide) (by decide)⟩

/-- C3 (confirmed): on the absolute-set path, a parseable value above 100
exits 1 with zero display I/O; an empty display list exits 1 with the
distinct no-displays message and no writes; otherwise the exit code is 0
whatever the per-display write outcomes. -/
theorem absolute_set_error_handling (s : String) (N : Nat)
    (displays : List DisplayDev)
    (hplus : startsWithChar '+' s = false) (hminus : startsWithChar '-' s = false)
    (hparse : parseU16 s = some N) :
    (100 < N → runMain [s] displays = ⟨1, [(.stderr, .rangeError)], []⟩)
    ∧ (N ≤ 100 → displays = [] →
        runMain [s] displays = ⟨1, [(.stderr, .noDisplays)], []⟩)
    ∧ (N ≤ 100 → displays ≠ [] → (runMain [s] displays).exitCode = 0) := by
  have hrun : runMain [s] displays = setPath (some s) displays := by
    rw [runMain_ok [s] displays ⟨some s, false, false, false, none⟩ (by simp)
        (parseLoop_single_bare s hplus hminus)]
    rw [dispatch_set _ displays rfl rfl rfl rfl]
  refine ⟨?_, ?_, ?_⟩
  · intro hgt
    rw [hrun]
    simp only [setPath, hparse]
    rw [if_pos hgt]
  · intro _ hemp
    subst hemp
    rw [hrun]
    simp only [setPath, hparse]
    rw [if_neg (by omega)]
    rfl
  · intro _ hne
    rw [hrun]
    simp only [setPath, hparse]
    rw [if_neg (by omega), if_neg (by rw [isEmpty_false hne]; simp)]
    rfl

/-- Witness for C3: the value 101 is rejected before any display I/O. -/
theorem absolute_set_error_handling_witness :
    parseU16 "101" = some 101
    ∧ ((100 < 101 →
          runMain ["101"] ([] : List DisplayDev) = ⟨1, [(.stderr, .rangeError)], []⟩)
      ∧ (101 ≤ 100 → ([] : List DisplayDev) = [] →
          runMain ["101"] ([] : List DisplayDev) = ⟨1, [(.stderr, .noDisplays)], []⟩)
      ∧ (101 ≤ 100 → ([] : List DisplayDev) ≠ [] →
          (runMain ["101"] ([] : List DisplayDev)).exitCode = 0)) :=
  ⟨by decide,
   absolute_set_error_handling "101" 101 [] (by decide) (by decide) (by decide)⟩

/-- C4 (amended): every argument-syntax error — unparseable `±` token,
extra positional token, zero arguments, out-of-range absolute value — is
fatal: exit status 1, an error message on standard error, zero display
I/O; but the usage text (which goes to standard output, not standard
error) accompanies exactly the argument-loop errors (unparseable `±`
token and extra positional), not the zero-argument or out-of-range
errors. -/
theorem argument_errors_fatal (args : List String) (displays : List DisplayDev)
    (h : args = []
      ∨ (∃ e, parseLoop args initFlags = Except.error e)
      ∨ (∃ t N, args = [t] ∧ startsWithChar '+' t = false
          ∧ startsWithChar '-' t = false ∧ parseU16 t = some N ∧ 100 < N)) :
    (runMain args displays).exitCode = 1
    ∧ (runMain args displays).io = []
    ∧ (∃ m, (OutStream.stderr, m) ∈ (runMain args displays).output)
    ∧ ((OutStream.stdout, Msg.usage) ∈ (runMain args displays).output
        ↔ ∃ e, parseLoop args initFlags = Except.error e) := by
  rcases h with hemp | ⟨e, he⟩ | ⟨t, N, hargs, htp, htm, hparse, hgt⟩
  · subst hemp
    refine ⟨rfl, rfl, ⟨Msg.noCommand, by simp [runMain]⟩, ?_⟩
    constructor
    · intro hm
      exact absurd hm (by simp [runMain])
    · rintro ⟨e, he⟩
      simp [parseLoop] at he
  · have hne : args ≠ [] := by
      intro hemp
      subst hemp
      simp [parseLoop] at he
    cases e with
    | invalidAdjustment s =>
      rw [runMain_error_invalid args displays s hne he]
      exact ⟨rfl, rfl, ⟨Msg.invalidAdjustment s, by simp⟩,
        iff_of_true (by simp) ⟨_, he⟩⟩
    | unexpectedArg s =>
      rw [runMain_error_unexpected args displays s hne he]
      exact ⟨rfl, rfl, ⟨Msg.unexpectedArg s, by simp⟩,
        iff_of_true (by simp) ⟨_, he⟩⟩
  · subst hargs
    rw [runMain_bare t displays htp htm, setPath_range t N displays hparse hgt]
    refine ⟨rfl, rfl, ⟨Msg.rangeError, by simp⟩, ?_⟩
    constructor
    · intro hm
      exact absurd hm (by simp)
    · rintro ⟨e, he⟩
      rw [parseLoop_single_bare t htp htm] at he
      cases he

/-- Witness for C4: two positional tokens trigger the extra-positional
error: exit 1, no display I/O, stderr message, usage on stdout. -/
theorem argument_errors_fatal_witness :
    (runMain ["50", "60"] [⟨some "M", some 50, true⟩]).exitCode = 1
    ∧ (runMain ["50", "60"] [⟨some "M", some 50, true⟩]).io = []
    ∧ (∃ m, (OutStream.stderr, m) ∈ (runMain ["50", "60"] [⟨some "M", some 50, true⟩]).output)
    ∧ ((OutStream.stdout, Msg.usage) ∈ (runMain ["50", "60"] [⟨some "M", some 50, true⟩]).output
        ↔ ∃ e, parseLoop ["50", "60"] initFlags = Except.error e) :=
  argument_errors_fatal ["50", "60"] [⟨some "M", some 50, true⟩]
    (Or.inr (Or.inl ⟨ParseErr.unexpectedArg "60", by rfl⟩))

/-- Counterexample for C4 as stated: zero arguments exit 1 but print no
usage text anywhere; an out-of-range value exits 1 with only the range
message; and when usage does accompany an error it is on stdout, never
stderr. -/
theorem argument_errors_usage_counterexample :
    runMain [] [] = ⟨1, [(OutStream.stderr, Msg.noCommand)], []⟩
    ∧ (OutStream.stderr, Msg.usage) ∉ (runMain [] []).output
    ∧ (OutStream.stdout, Msg.usage) ∉ (runMain [] []).output
    ∧ runMain ["101"] [] = ⟨1, [(OutStream.stderr, Msg.rangeError)], []⟩
    ∧ (OutStream.stderr, Msg.usage) ∉ (runMain ["101"] []).output
    ∧ (OutStream.stdout, Msg.usage) ∉ (runMain ["101"] []).output
    ∧ (runMain ["50", "60"] []).output
        = [(OutStream.stderr, Msg.unexpectedArg "60"), (OutStream.stdout, Msg.usage)]
    ∧ (OutStream.stderr, Msg.usage) ∉ (runMain ["50", "60"] []).output := by
  decide

/-- C5 (amended): for every argument list containing `--help` or `-h` on
which the argument loop completes without a fatal parse error, Help takes
precedence over Status and over the positional/adjustment path: the
program prints usage, exits 0 and performs zero display I/O. -/
theorem help_takes_precedence (args : List String) (displays : List DisplayDev)
    (fl : Flags)
    (hmem : "--help" ∈ args ∨ "-h" ∈ args)
    (hp : parseLoop args initFlags = Except.ok fl) :
    runMain args displays = ⟨0, [(.stdout, .usage)], []⟩ := by
  have hne : args ≠ [] := by
    rcases hmem with hm | hm
    · exact List.ne_nil_of_mem hm
    · exact List.ne_nil_of_mem hm
  rw [runMain_ok args displays fl hne hp]
  exact dispatch_help fl displays (parseLoop_mem_help args initFlags fl hmem hp)

/-- Witness for C5: `--status -h 42` still lands on the Help action. -/
theorem help_takes_precedence_witness :
    parseLoop ["--status", "-h", "42"] initFlags
      = Except.ok ⟨some "42", true, true, false, none⟩
    ∧ runMain ["--status", "-h", "42"] [⟨some "M", some 50, true⟩]
      = ⟨0, [(.stdout, .usage)], []⟩ :=
  ⟨by rfl,
   help_takes_precedence ["--status", "-h", "42"] [⟨some "M", some 50, true⟩]
     ⟨some "42", true, true, false, none⟩ (by decide) (by rfl)⟩

/-- Counterexample for C5 as stated: `["--help", "+x"]` contains
`--help`, yet the run exits 1, not 0 (the parse error preempts Help). -/
theorem help_flag_counterexample :
    "--help" ∈ ["--help", "+x"]
    ∧ (runMain ["--help", "+x"] [⟨some "M", some 50, true⟩]).exitCode = 1
    ∧ (runMain ["--help", "+x"] [⟨some "M", some 50, true⟩]).exitCode ≠ 0 := by
  decide

/-- C6 (confirmed): on the adjust path, a display whose
`get_vcp_feature(0x10)` read fails gets no write, its report is the
read-failure line (a message distinct from the write-failure line), the
loop still processes every display, and the process exits 0. -/
theorem adjust_read_failure_skips_write (s : String) (delta : Int)
    (displays : List DisplayDev) (d : DisplayDev)
    (hpm : (startsWithChar '+' s || startsWithChar '-' s) = true)
    (hparse : parseI16 s = some delta)
    (hd : d ∈ displays) (hr : d.readResult = none) :
    (adjustDisplay delta d).1 = [Ev.getFeature 0x10]
    ∧ (adjustDisplay delta d).2 = [(.stderr, .readFailed d.model_name)]
    ∧ (∀ name, Msg.readFailed name ≠ Msg.setFailed name)
    ∧ (runMain [s] displays).io
        = (displays.map (fun x => (adjustDisplay delta x).1)).flatten
    ∧ (runMain [s] displays).exitCode = 0 := by
  have hrun : runMain [s] displays = adjustRun delta displays := by
    rw [runMain_ok [s] displays ⟨none, false, false, false, some delta⟩ (by simp)
        (parseLoop_single_adjust s delta hpm hparse)]
    rw [dispatch_adjust _ displays delta rfl rfl rfl rfl]
  refine ⟨adjustDisplay_io_none delta d hr, adjustDisplay_out_none delta d hr,
    fun name h => Msg.noConfusion h, ?_, ?_⟩
  · rw [hrun]
    rfl
  · rw [hrun]
    rfl

/-- Witness for C6: `-10` with one failing-read display and one healthy
display: the first is only read, the second is read and written, and the
run exits 0. -/
theorem adjust_read_failure_skips_write_witness :
    parseI16 "-10" = some (-10)
    ∧ ((adjustDisplay (-10) ⟨some "B", none, true⟩).1 = [Ev.getFeature 0x10]
      ∧ (adjustDisplay (-10) ⟨some "B", none, true⟩).2
          = [(.stderr, .readFailed (some "B"))]
      ∧ (∀ name, Msg.readFailed name ≠ Msg.setFailed name)
      ∧ (runMain ["-10"] [⟨some "B", none, true⟩, ⟨some "C", some 40, true⟩]).io
          = ([⟨some "B", none, true⟩, ⟨some "C", some 40, true⟩].map
              (fun x => (adjustDisplay (-10) x).1)).flatten
      ∧ (runMain ["-10"] [⟨some "B", none, true⟩, ⟨some "C", some 40, true⟩]).exitCode
          = 0) :=
  ⟨by decide,
   adjust_read_failure_skips_write "-10" (-10)
     [⟨some "B", none, true⟩, ⟨some "C", some 40, true⟩] ⟨some "B", none, true⟩
     (by decide) (by decide) (by decide) (by decide)⟩

/-- C7 (confirmed): every `set_vcp_feature` call the program ever issues,
on any path (absolute set or adjust), for any argument list and any
display environment, has feature code 0x10 and a value in `[0, 100]`. -/
theorem set_feature_always_in_range (args : List String)
    (displays : List DisplayDev) (code v : Nat)
    (h : Ev.setFeature code v ∈ (runMain args displays).io) :
    code = 0x10 ∧ v ≤ 100 := by
  cases args with
  | nil => simp [runMain] at h
  | cons a l =>
    cases hp : parseLoop (a :: l) initFlags with
    | error e =>
      cases e with
      | invalidAdjustment s =>
        rw [runMain_error_invalid (a :: l) displays s (by simp) hp] at h
        simp at h
      | unexpectedArg s =>
        rw [runMain_error_unexpected (a :: l) displays s (by simp) hp] at h
        simp at h
    | ok fl =>
      rw [runMain_ok (a :: l) displays fl (by simp) hp] at h
      exact dispatch_io_mem fl displays code v h

/-- Witness for C7: the single write of an absolute-set run is in range. -/
theorem set_feature_always_in_range_witness :
    Ev.setFeature 0x10 50 ∈ (runMain ["50"] [⟨some "M", some 20, true⟩]).io
    ∧ ((0x10 : Nat) = 0x10 ∧ (50 : Nat) ≤ 100) :=
  ⟨by decide,
   set_feature_always_in_range ["50"] [⟨some "M", some 20, true⟩] 0x10 50 (by decide)⟩

/-- C8 (confirmed): when the Status action runs (status flag set, help
flag not set), the program performs exactly one get-feature(0x10) read
per enumerated display and never any set-feature call, reports
per-display support as the outcome of that read, and exits 0. -/
theorem status_never_writes (args : List String) (displays : List DisplayDev)
    (fl : Flags)
    (hargs : args ≠ [])
    (hp : parseLoop args initFlags = Except.ok fl)
    (hh : fl.print_help = false) (hs : fl.print_status = true) :
    (runMain args displays).io = displays.map (fun _ => Ev.getFeature 0x10)
    ∧ (∀ c v, Ev.setFeature c v ∉ (runMain args displays).io)
    ∧ (runMain args displays).output = displays.map statusLine
    ∧ (runMain args displays).exitCode = 0 := by
  have hrun : runMain args displays = statusRun displays := by
    rw [runMain_ok args displays fl hargs hp]
    exact dispatch_status fl displays hh hs
  refine ⟨by rw [hrun]; rfl, ?_, by rw [hrun]; rfl, by rw [hrun]; rfl⟩
  intro c v hmem
  rw [hrun] at hmem
  simp only [statusRun, List.mem_map] at hmem
  obtain ⟨d, _, he⟩ := hmem
  exact Ev.noConfusion he

/-- Witness for C8: `-s` with two displays reads both and writes none. -/
theorem status_never_writes_witness :
    parseLoop ["-s"] initFlags = Except.ok ⟨none, false, true, false, none⟩
    ∧ ((runMain ["-s"] [⟨some "M", some 20, true⟩, ⟨none, none, false⟩]).io
        = [⟨some "M", some 20, true⟩, (⟨none, none, false⟩ : DisplayDev)].map
            (fun _ => Ev.getFeature 0x10)
      ∧ (∀ c v, Ev.setFeature c v ∉
          (runMain ["-s"] [⟨some "M", some 20, true⟩, ⟨none, none, false⟩]).io)
      ∧ (runMain ["-s"] [⟨some "M", some 20, true⟩, ⟨none, none, false⟩]).output
        = [⟨some "M", some 20, true⟩, (⟨none, none, false⟩ : DisplayDev)].map statusLine
      ∧ (runMain ["-s"] [⟨some "M", some 20, true⟩, ⟨none, none, false⟩]).exitCode
        = 0) :=
  ⟨by rfl,
   status_never_writes ["-s"] [⟨some "M", some 20, true⟩, ⟨none, none, false⟩]
     ⟨none, false, true, false, none⟩ (by decide) (by rfl) (by decide) (by decide)⟩

/-- C9 (confirmed): a fatal argument-loop error preempts the Help flag:
whenever the argument list contains `--help` or `-h` but the loop aborts
with a parse error, the program exits 1 during parsing with zero display
I/O, never reaching the Help action's exit 0. -/
theorem parse_error_preempts_help (args : List String)
    (displays : List DisplayDev) (e : ParseErr)
    (hmem : "--help" ∈ args ∨ "-h" ∈ args)
    (hp : parseLoop args initFlags = Except.error e) :
    (runMain args displays).exitCode = 1
    ∧ (runMain args displays).io = []
    ∧ (runMain args displays).exitCode ≠ 0 := by
  have hne : args ≠ [] := by
    rcases hmem with hm | hm
    · exact List.ne_nil_of_mem hm
    · exact List.ne_nil_of_mem hm
  cases e with
  | invalidAdjustment s =>
    rw [runMain_error_invalid args displays s hne hp]
    exact ⟨rfl, rfl, by simp⟩
  | unexpectedArg s =>
    rw [runMain_error_unexpected args displays s hne hp]
    exact ⟨rfl, rfl, by simp⟩

/-- Witness for C9: `-h 50 60` dies on the second positional with exit 1
even though `-h` came first. -/
theorem parse_error_preempts_help_witness :
    parseLoop ["-h", "50", "60"] initFlags
      = Except.error (ParseErr.unexpectedArg "60")
    ∧ ((runMain ["-h", "50", "60"] [⟨some "M", some 20, true⟩]).exitCode = 1
      ∧ (runMain ["-h", "50", "60"] [⟨some "M", some 20, true⟩]).io = []
      ∧ (runMain ["-h", "50", "60"] [⟨some "M", some 20, true⟩]).exitCode ≠ 0) :=
  ⟨by rfl,
   parse_error_preempts_help ["-h", "50", "60"] [⟨some "M", some 20, true⟩]
     (ParseErr.unexpectedArg "60") (by decide) (by rfl)⟩

/-- C10 (confirmed): when a parseable signed delta token is accompanied
by a bare positional token, the adjust path runs and the positional value
is silently ignored: the run is identical to the same invocation without
the positional token, exits 0, and performs exactly the adjust-loop
I/O (the positional value is never parsed, range-checked or written). -/
theorem extra_positional_ignored_on_adjust (s t : String) (delta : Int)
    (displays : List DisplayDev)
    (hpm : (startsWithChar '+' s || startsWithChar '-' s) = true)
    (hparse : parseI16 s = some delta)
    (htp : startsWithChar '+' t = false) (htm : startsWithChar '-' t = false) :
    runMain [s, t] displays = runMain [s] displays
    ∧ (runMain [s, t] displays).exitCode = 0
    ∧ (runMain [s, t] displays).io
        = (displays.map (fun x => (adjustDisplay delta x).1)).flatten := by
  have h2 : runMain [s, t] displays = adjustRun delta displays := by
    rw [runMain_ok [s, t] displays ⟨some t, false, false, false, some delta⟩ (by simp)
        (parseLoop_adjust_then_bare s t delta hpm hparse htp htm)]
    rw [dispatch_adjust _ displays delta rfl rfl rfl rfl]
  have h1 : runMain [s] displays = adjustRun delta displays := by
    rw [runMain_ok [s] displays ⟨none, false, false, false, some delta⟩ (by simp)
        (parseLoop_single_adjust s delta hpm hparse)]
    rw [dispatch_adjust _ displays delta rfl rfl rfl rfl]
  refine ⟨h2.trans h1.symm, by rw [h2]; rfl, by rw [h2]; rfl⟩

/-- Witness for C10: `+5 999` behaves exactly like `+5`; the out-of-range
`999` is never examined. -/
theorem extra_positional_ignored_on_adjust_witness :
    parseI16 "+5" = some 5
    ∧ (runMain ["+5", "999"] [⟨some "M", some 99, true⟩]
        = runMain ["+5"] [⟨some "M", some 99, true⟩]
      ∧ (runMain ["+5", "999"] [⟨some "M", some 99, true⟩]).exitCode = 0
      ∧ (runMain ["+5", "999"] [⟨some "M", some 99, true⟩]).io
          = ([⟨some "M", some 99, true⟩].map (fun x => (adjustDisplay 5 x).1)).flatten) :=
  ⟨by decide,
   extra_positional_ignored_on_adjust "+5" "999" 5 [⟨some "M", some 99, true⟩]
     (by decide) (by decide) (by decide) (by decide)⟩

end Brightshift
